import Mathlib

/-
  Verification development for the Email-Verifier repository
  (src/email_validator.py).

  The Python program is shallowly embedded: external collaborators
  (the email-format validation library, the DNS resolver, the SMTP
  client, the random number generator, and the pandas/Excel layer)
  are modelled as oracles passed in as arguments, and every observable
  side effect (DNS lookup, SMTP probe, sleep, log line, console print,
  Excel write) is recorded in an explicit event trace.
-/

namespace EmailVerifier

/-- A Python value appearing in an input list: a string or a non-string
    (modelled by integers, the example used in the repository docs). -/
inductive PyVal where
  | str (s : String)
  | int (n : Int)
deriving DecidableEq

/-- `isinstance(x, str)` -/
def PyVal.isStr : PyVal → Bool
  | .str _ => true
  | .int _ => false

/-- Python `str(x)` / f-string rendering of a value. -/
def pyStr : PyVal → String
  | .str s => s
  | .int n => toString n

/-- Python rendering of a boolean inside an f-string. -/
def pyBoolStr : Bool → String
  | true => "True"
  | false => "False"

/-- Observable side effects of the program, in order of occurrence. -/
inductive Event where
  | resolveCall (domain : String)
  | smtpProbe (host sender rcpt : String)
  | sleep (duration : ℚ)
  | logInfo (msg : String)
  | logWarning (msg : String)
  | logError (msg : String)
  | consolePrint (msg : String)
  | consoleSummary (valid total : Nat)
  | excelWrite (path : String)
deriving DecidableEq

/-- Is the event a DNS resolver invocation? -/
def Event.isResolve : Event → Bool
  | .resolveCall _ => true
  | _ => false

/-- Is the event an SMTP connection/probe? -/
def Event.isProbe : Event → Bool
  | .smtpProbe _ _ _ => true
  | _ => false

/-- Is the event a `time.sleep` call? -/
def Event.isSleep : Event → Bool
  | .sleep _ => true
  | _ => false

/-- Is the event console output (`print`)? -/
def Event.isConsole : Event → Bool
  | .consolePrint _ => true
  | .consoleSummary _ _ => true
  | _ => false

/-- Is the event a successful Excel file write? -/
def Event.isWrite : Event → Bool
  | .excelWrite _ => true
  | _ => false

/-- Outcome of `validate_email(email)` from the email_validator library:
    a normalized address, or an `EmailNotValidError` with a message. -/
inductive ValidateOutcome where
  | ok (normalized : String)
  | err (msg : String)
deriving DecidableEq

/-- Outcome of `dns.resolver.resolve(domain, MX)`: the list of MX
    exchange hostnames in resolver-returned order (already stringified),
    or a raised exception with a message. -/
inductive DnsOutcome where
  | records (exchanges : List String)
  | exn (msg : String)
deriving DecidableEq

/-- Outcome of the SMTP session (connect, helo, mail, rcpt) against a
    given host for a given recipient: the `(code, text)` returned by
    `server.rcpt`, or one of the exception classes caught in
    `verify_email`. -/
inductive SmtpOutcome where
  | rcptResult (code : Nat) (text : String)
  | connectError (msg : String)
  | disconnected (msg : String)
  | otherError (msg : String)
deriving DecidableEq

/-- The external world `verify_email` talks to. -/
structure Env where
  validate : String → ValidateOutcome
  resolve : String → DnsOutcome
  smtp : String → String → SmtpOutcome

/-- The stream of `random.uniform(a, b)` draws: given the two bounds and
    the index of the call, the value returned. -/
abbrev RandomSource := ℚ → ℚ → Nat → ℚ

/-- The state set up by `EmailValidator.__init__`. -/
structure EmailValidatorState where
  log_file : String
  debug_level : Nat
  sender_email : String
deriving DecidableEq

/-- `EmailValidator.__init__(log_file, debug_level)`: stores the two
    parameters and hardcodes `sender_email = 'verification@example.com'`. -/
def EmailValidator.init (log_file : String) (debug_level : Nat) : EmailValidatorState :=
  ⟨log_file, debug_level, "verification@example.com"⟩

/-- The validator built with the default constructor arguments, as in
    `main`. -/
def defaultValidator : EmailValidatorState :=
  EmailValidator.init "email_verification.log" 0

/-- Python `str.split(sep)` on a character list (left to right). -/
def splitCharsOn (sep : Char) : List Char → List (List Char)
  | [] => [[]]
  | c :: cs =>
      match splitCharsOn sep cs with
      | g :: gs => if c = sep then [] :: g :: gs else (c :: g) :: gs
      | [] => if c = sep then [[], []] else [[c]]

/-- Python `s.split(sep)` for a one-character separator. -/
def pySplit (s : String) (sep : Char) : List String :=
  (splitCharsOn sep s.data).map (fun cs => String.mk cs)

/-- The `ValueError` message raised by `local_part, domain = parts` when
    `parts` does not have exactly two elements. -/
def unpackErrMsg (n : Nat) : String :=
  if n < 2 then "not enough values to unpack (expected 2, got " ++ toString n ++ ")"
  else "too many values to unpack (expected 2)"

/-- `EmailValidator.get_mx_record(domain)`: one `dns.resolver.resolve`
    attempt; on success takes `str(mx_records[0].exchange)` and logs it;
    any exception (including an empty answer) is logged and turned into
    `None`. -/
def get_mx_record (resolve : String → DnsOutcome) (domain : String) :
    Option String × List Event :=
  match resolve domain with
  | .records (e :: _) =>
      (some e,
       [Event.resolveCall domain,
        Event.logInfo ("MX record found for " ++ domain ++ ": " ++ e)])
  | .records [] =>
      (none,
       [Event.resolveCall domain,
        Event.logError ("Error retrieving MX records for " ++ domain ++
          ": list index out of range")])
  | .exn m =>
      (none,
       [Event.resolveCall domain,
        Event.logError ("Error retrieving MX records for " ++ domain ++ ": " ++ m)])

/-- The SMTP block of `verify_email`: `with smtplib.SMTP(mx_record) as
    server: server.helo(); server.mail(self.sender_email); code, message
    = server.rcpt(normalized_email)`, with the three `except` clauses of
    `verify_email` folded in. `tr` is the trace accumulated so far. -/
def verifyProbe (cfg : EmailValidatorState) (env : Env) (normalized mx : String)
    (tr : List Event) : (Bool × String) × List Event :=
  let tr2 := tr ++ [Event.smtpProbe mx cfg.sender_email normalized]
  match env.smtp mx normalized with
  | .rcptResult code text =>
      if code = 250 then ((true, "Email address is valid"), tr2)
      else ((false, "Server response: " ++ toString code ++ " " ++ text), tr2)
  | .connectError m => ((false, "SMTP connection error: " ++ m), tr2)
  | .disconnected m => ((false, "SMTP server disconnected: " ++ m), tr2)
  | .otherError m => ((false, "Error during verification: " ++ m), tr2)

/-- The MX stage of `verify_email`: `mx_record = self.get_mx_record(domain);
    if not mx_record: return False, "Domain MX record not found"`.
    Note Python falsiness: both `None` and the empty string fail the test. -/
def verifyMx (cfg : EmailValidatorState) (env : Env) (normalized domain : String) :
    (Bool × String) × List Event :=
  let mx := get_mx_record env.resolve domain
  match mx.1 with
  | none => ((false, "Domain MX record not found"), mx.2)
  | some m =>
      if m = "" then ((false, "Domain MX record not found"), mx.2)
      else verifyProbe cfg env normalized m mx.2

/-- The split stage of `verify_email`:
    `local_part, domain = normalized_email.split('@')`; an unpack failure
    is caught by the outer `except Exception`. -/
def verifySplit (cfg : EmailValidatorState) (env : Env) (normalized : String) :
    (Bool × String) × List Event :=
  match pySplit normalized '@' with
  | [_l, d] => verifyMx cfg env normalized d
  | parts =>
      ((false, "Error during verification: " ++ unpackErrMsg parts.length), [])

/-- `EmailValidator.verify_email(email)`: format validation, split,
    MX resolution, SMTP probe; every failure is returned as
    `(False, message)`. -/
def verify_email (cfg : EmailValidatorState) (env : Env) (email : String) :
    (Bool × String) × List Event :=
  match env.validate email with
  | .err m => ((false, "Invalid email format: " ++ m), [])
  | .ok normalized => verifySplit cfg env normalized

/-- The progress line of `process_email_list`:
    `f"[{i}/{total_emails}] Email: {email}, Valid: {is_valid}, Message: {message}"`. -/
def progressLine (i total : Nat) (email : String) (valid : Bool) (msg : String) :
    String :=
  "[" ++ toString i ++ "/" ++ toString total ++ "] Email: " ++ email ++
    ", Valid: " ++ pyBoolStr valid ++ ", Message: " ++ msg

/-- The warning line logged for a non-string input:
    `f"Email: {email}, Valid: False, Message: {message}"`. -/
def nonStringLine (e : PyVal) : String :=
  "Email: " ++ pyStr e ++ ", Valid: False, Message: Invalid email type"

/-- One iteration of the loop body of `process_email_list` at 1-based
    index `i` of `total`, with `k` `random.uniform` calls made so far.
    Returns the appended result tuple, the events of this iteration, and
    the updated draw counter. -/
def process_item (cfg : EmailValidatorState) (env : Env) (rand : RandomSource)
    (minD maxD : ℚ) (total i k : Nat) (e : PyVal) :
    ((PyVal × Bool × String) × List Event) × Nat :=
  match e with
  | .str s =>
      let vr := verify_email cfg env s
      let line := progressLine i total s vr.1.1 vr.1.2
      let res := (PyVal.str s, vr.1.1, vr.1.2)
      if i < total then
        ((res, vr.2 ++ [Event.logInfo line, Event.consolePrint line,
            Event.sleep (rand minD maxD k)]), k + 1)
      else
        ((res, vr.2 ++ [Event.logInfo line, Event.consolePrint line]), k)
  | e =>
      (((e, false, "Invalid email type"), [Event.logWarning (nonStringLine e)]), k)

/-- The loop of `process_email_list`, starting at 1-based index `i` with
    draw counter `k`. -/
def processAux (cfg : EmailValidatorState) (env : Env) (rand : RandomSource)
    (minD maxD : ℚ) (total : Nat) : Nat → Nat → List PyVal →
    List (PyVal × Bool × String) × List Event
  | _, _, [] => ([], [])
  | i, k, e :: rest =>
      let step := process_item cfg env rand minD maxD total i k e
      let restOut := processAux cfg env rand minD maxD total (i + 1) step.2 rest
      (step.1.1 :: restOut.1, step.1.2 ++ restOut.2)

/-- `EmailValidator.process_email_list(email_list, min_delay, max_delay)`. -/
def process_email_list (cfg : EmailValidatorState) (env : Env)
    (rand : RandomSource) (email_list : List PyVal) (minD maxD : ℚ) :
    List (PyVal × Bool × String) × List Event :=
  processAux cfg env rand minD maxD email_list.length 1 0 email_list

/-- The result tuple `process_email_list` records for one input element. -/
def itemResult (cfg : EmailValidatorState) (env : Env) : PyVal → PyVal × Bool × String
  | .str s => (PyVal.str s, (verify_email cfg env s).1.1, (verify_email cfg env s).1.2)
  | e => (e, false, "Invalid email type")

/-- The pandas DataFrame as far as the program observes it: the column
    names and the email column, one cell per row, `none` for a missing
    (NaN) cell. -/
structure DataFrame where
  columns : List String
  emailCells : List (Option PyVal)
deriving DecidableEq

/-- Outcome of `pd.read_excel(file_path)`: a table, a missing file, or
    some other raised exception. -/
inductive ExcelOutcome where
  | table (df : DataFrame)
  | fileNotFound
  | exn (msg : String)
deriving DecidableEq

/-- Outcome of `df.to_excel(path)`. -/
inductive WriteOutcome where
  | ok
  | exn (msg : String)
deriving DecidableEq

/-- `ExcelHandler.read_emails_from_excel(file_path, email_column_name)`:
    reads the table, checks the column, and returns
    `df[col].dropna().astype(str).tolist()` together with the DataFrame;
    every failure yields `([], None)`. -/
def read_emails_from_excel (outcome : ExcelOutcome)
    (file_path email_column_name : String) :
    (List String × Option DataFrame) × List Event :=
  match outcome with
  | .table df =>
      if email_column_name ∈ df.columns then
        let emails := (df.emailCells.filterMap id).map pyStr
        ((emails, some df),
         [Event.logInfo ("Successfully read " ++ toString emails.length ++
            " emails from " ++ file_path)])
      else
        (([], none),
         [Event.logError ("Column \x27" ++ email_column_name ++
            "\x27 not found in Excel file")])
  | .fileNotFound =>
      (([], none), [Event.logError ("Excel file not found: " ++ file_path)])
  | .exn m =>
      (([], none), [Event.logError ("Error reading Excel file: " ++ m)])

/-- `ExcelHandler.write_results_to_excel(df, output_file_path)`. -/
def write_results_to_excel (w : WriteOutcome) (output_file_path : String) :
    Bool × List Event :=
  match w with
  | .ok =>
      (true,
       [Event.excelWrite output_file_path,
        Event.logInfo ("Results written to Excel file: " ++ output_file_path)])
  | .exn m =>
      (false, [Event.logError ("Error writing to Excel file: " ++ m)])

/-- How a run of `main` ends: early return with no emails, an uncaught
    pandas `ValueError` on the column assignment (list length differs
    from the DataFrame row count), or normal completion. -/
inductive MainOutcome where
  | noEmails
  | lengthMismatch (results : List (PyVal × Bool × String))
  | finished (results : List (PyVal × Bool × String)) (writeOk : Bool)
deriving DecidableEq

/-- `main()`: reads `input_emails.xlsx` column `Email`, aborts when no
    emails were read, otherwise processes the list with the default
    delays, assigns the result columns to the DataFrame (which raises
    when the list length differs from the row count), and only then
    writes the output file and prints the summary. -/
def pyMain (excel : ExcelOutcome) (env : Env) (rand : RandomSource)
    (w : WriteOutcome) : MainOutcome × List Event :=
  let cfg := defaultValidator
  let rd := read_emails_from_excel excel "input_emails.xlsx" "Email"
  let tr0 := Event.consolePrint "Starting email validation process..." :: rd.2
  let abortTr := tr0 ++
    [Event.consolePrint "No emails to process. Please check your input file and column name.",
     Event.logError "No emails to process."]
  match rd.1.2, rd.1.1 with
  | none, _ => (.noEmails, abortTr)
  | some _, [] => (.noEmails, abortTr)
  | some df, e :: es =>
      let emails := e :: es
      let tr1 := tr0 ++
        [Event.consolePrint ("Found " ++ toString emails.length ++ " emails to validate.")]
      let proc := process_email_list cfg env rand (emails.map PyVal.str) 1 5
      if proc.1.length = df.emailCells.length then
        let wr := write_results_to_excel w "verified_emails.xlsx"
        let trW :=
          if wr.1 then
            [Event.consolePrint "Validation complete! Results saved to verified_emails.xlsx"]
          else
            [Event.consolePrint "Error saving results to Excel file."]
        (.finished proc.1 wr.1,
         tr1 ++ proc.2 ++ wr.2 ++ trW ++
           [Event.consoleSummary (proc.1.countP (fun r => r.2.1)) proc.1.length])
      else
        (.lengthMismatch proc.1, tr1 ++ proc.2)

/-- The sleeps the loop performs: one after every string item whose
    1-based position is below `total`, consuming one `random.uniform`
    draw each; none after non-string items or the final item. -/
def expectedSleeps (rand : RandomSource) (minD maxD : ℚ) (total : Nat) :
    Nat → Nat → List PyVal → List Event
  | _, _, [] => []
  | i, k, PyVal.str _ :: rest =>
      if i < total then
        Event.sleep (rand minD maxD k) ::
          expectedSleeps rand minD maxD total (i + 1) (k + 1) rest
      else expectedSleeps rand minD maxD total (i + 1) k rest
  | i, k, PyVal.int _ :: rest => expectedSleeps rand minD maxD total (i + 1) k rest

/-- Does the event, when it is an SMTP probe, use the given MAIL FROM
    sender? (Any other event counts as compliant.) -/
def Event.smtpSenderIs (sender : String) : Event → Bool
  | .smtpProbe _ s _ => s == sender
  | _ => true

/-! ### Concrete test worlds used by witnesses and counterexamples -/

/-- A world where every collaborator fails. -/
def envAllFail : Env :=
  ⟨fun _ => .err "bad", fun _ => .exn "boom", fun _ _ => .otherError "oops"⟩

/-- A world where any address validates, resolves, and is accepted with
    code 250. -/
def envAccept : Env :=
  ⟨fun _ => .ok "a@b.c", fun _ => .records ["mx.b.c"], fun _ _ => .rcptResult 250 "ok"⟩

/-- A world where the recipient check answers code 550. -/
def envReject : Env :=
  ⟨fun _ => .ok "a@b.c", fun _ => .records ["mx.b.c"],
   fun _ _ => .rcptResult 550 "user unknown"⟩

/-- A deterministic random source returning the lower bound. -/
def randMin : RandomSource := fun a _ _ => a

/-- A resolver returning two MX records for every domain. -/
def resolverTwo : String → DnsOutcome := fun _ => .records ["mx1.b.c", "mx2.b.c"]

/-- A two-row table whose email column has one present and one missing
    value. -/
def dfHalfMissing : DataFrame :=
  ⟨["Email"], [some (PyVal.str "a@b.c"), none]⟩

/-! ### Helper lemmas about the traces -/

theorem verifyProbe_trace (cfg : EmailValidatorState) (env : Env)
    (normalized mx : String) (tr : List Event) :
    (verifyProbe cfg env normalized mx tr).2 =
      tr ++ [Event.smtpProbe mx cfg.sender_email normalized] := by
  unfold verifyProbe
  cases env.smtp mx normalized
  case rcptResult code text => dsimp only; split <;> rfl
  all_goals rfl

theorem gmx_resolve_filter (resolve : String → DnsOutcome) (d : String) :
    (get_mx_record resolve d).2.filter Event.isResolve = [Event.resolveCall d] := by
  unfold get_mx_record
  cases hr : resolve d with
  | records l => cases l <;> rfl
  | exn m => rfl

theorem gmx_events (resolve : String → DnsOutcome) (d : String) :
    ∀ ev ∈ (get_mx_record resolve d).2,
      ev.isSleep = false ∧ ev.isConsole = false ∧ ev.isWrite = false ∧
        ev.isProbe = false := by
  intro ev hev
  unfold get_mx_record at hev
  cases hr : resolve d with
  | records l =>
    rw [hr] at hev
    cases l with
    | nil =>
      simp only [List.mem_cons, List.not_mem_nil, or_false] at hev
      rcases hev with h | h <;> subst h <;> exact ⟨rfl, rfl, rfl, rfl⟩
    | cons e t =>
      simp only [List.mem_cons, List.not_mem_nil, or_false] at hev
      rcases hev with h | h <;> subst h <;> exact ⟨rfl, rfl, rfl, rfl⟩
  | exn m =>
    rw [hr] at hev
    simp only [List.mem_cons, List.not_mem_nil, or_false] at hev
    rcases hev with h | h <;> subst h <;> exact ⟨rfl, rfl, rfl, rfl⟩

theorem verify_trace_shape (cfg : EmailValidatorState) (env : Env) (s : String) :
    (verify_email cfg env s).2 = [] ∨
    (∃ d, (verify_email cfg env s).2 = (get_mx_record env.resolve d).2) ∨
    (∃ d mx norm, (verify_email cfg env s).2 =
      (get_mx_record env.resolve d).2 ++ [Event.smtpProbe mx cfg.sender_email norm]) := by
  unfold verify_email
  cases hv : env.validate s with
  | err m => exact Or.inl rfl
  | ok norm =>
    dsimp only
    unfold verifySplit
    cases hp : pySplit norm '@' with
    | nil => exact Or.inl rfl
    | cons a t =>
      cases t with
      | nil => exact Or.inl rfl
      | cons b t2 =>
        cases t2 with
        | cons c t3 => exact Or.inl rfl
        | nil =>
          dsimp only
          unfold verifyMx
          dsimp only
          cases hg : (get_mx_record env.resolve b).1 with
          | none => exact Or.inr (Or.inl ⟨b, rfl⟩)
          | some m =>
            dsimp only
            by_cases h0 : m = ""
            · rw [if_pos h0]
              exact Or.inr (Or.inl ⟨b, rfl⟩)
            · rw [if_neg h0]
              exact Or.inr (Or.inr ⟨b, m, norm, verifyProbe_trace cfg env norm m _⟩)

theorem verify_events (cfg : EmailValidatorState) (env : Env) (s : String) :
    ∀ ev ∈ (verify_email cfg env s).2,
      ev.isSleep = false ∧ ev.isConsole = false ∧ ev.isWrite = false ∧
        (∀ h sd r, ev = Event.smtpProbe h sd r → sd = cfg.sender_email) := by
  intro ev hev
  rcases verify_trace_shape cfg env s with h | ⟨d, h⟩ | ⟨d, mx, norm, h⟩
  · rw [h] at hev; exact absurd hev (List.not_mem_nil ev)
  · rw [h] at hev
    obtain ⟨h1, h2, h3, h4⟩ := gmx_events env.resolve d ev hev
    refine ⟨h1, h2, h3, ?_⟩
    intro hh sd r he
    subst he
    simp [Event.isProbe] at h4
  · rw [h] at hev
    rcases List.mem_append.mp hev with hin | hin
    · obtain ⟨h1, h2, h3, h4⟩ := gmx_events env.resolve d ev hin
      refine ⟨h1, h2, h3, ?_⟩
      intro hh sd r he
      subst he
      simp [Event.isProbe] at h4
    · simp only [List.mem_cons, List.not_mem_nil, or_false] at hin
      subst hin
      exact ⟨rfl, rfl, rfl, fun h sd r he => by cases he; rfl⟩

theorem verify_filter_sleep (cfg : EmailValidatorState) (env : Env) (s : String) :
    (verify_email cfg env s).2.filter Event.isSleep = [] := by
  rw [List.filter_eq_nil_iff]
  intro ev hev
  simp [(verify_events cfg env s ev hev).1]

theorem verify_filter_write (cfg : EmailValidatorState) (env : Env) (s : String) :
    (verify_email cfg env s).2.filter Event.isWrite = [] := by
  rw [List.filter_eq_nil_iff]
  intro ev hev
  simp [(verify_events cfg env s ev hev).2.2.1]

/-- The first component of the result of one loop iteration does not
    depend on the position, the draw counter, or the delay bounds. -/
theorem process_item_fst (cfg : EmailValidatorState) (env : Env)
    (rand : RandomSource) (minD maxD : ℚ) (total i k : Nat) (e : PyVal) :
    (process_item cfg env rand minD maxD total i k e).1.1 = itemResult cfg env e := by
  cases e with
  | str s =>
    unfold process_item itemResult
    dsimp only
    split <;> rfl
  | int n => rfl

/-- The result list of the batch loop is the pointwise image of the
    input list under `itemResult`. -/
theorem processAux_fst (cfg : EmailValidatorState) (env : Env)
    (rand : RandomSource) (minD maxD : ℚ) (total : Nat) :
    ∀ (es : List PyVal) (i k : Nat),
      (processAux cfg env rand minD maxD total i k es).1 =
        es.map (itemResult cfg env) := by
  intro es
  induction es with
  | nil => intro i k; rfl
  | cons e rest ih =>
    intro i k
    simp only [processAux, List.map_cons]
    rw [process_item_fst, ih]

theorem process_email_list_fst (cfg : EmailValidatorState) (env : Env)
    (rand : RandomSource) (es : List PyVal) (minD maxD : ℚ) :
    (process_email_list cfg env rand es minD maxD).1 =
      es.map (itemResult cfg env) :=
  processAux_fst cfg env rand minD maxD es.length es 1 0

/-- The first component of `itemResult` is the input element itself. -/
theorem itemResult_fst (cfg : EmailValidatorState) (env : Env) (e : PyVal) :
    (itemResult cfg env e).1 = e := by
  cases e <;> rfl

/-- Every event emitted by the batch loop is a resolver call, an SMTP
    probe, a sleep, a log line, or a console print — never an Excel
    write. -/
theorem processAux_no_write (cfg : EmailValidatorState) (env : Env)
    (rand : RandomSource) (minD maxD : ℚ) (total : Nat) :
    ∀ (es : List PyVal) (i k : Nat),
      ∀ ev ∈ (processAux cfg env rand minD maxD total i k es).2,
        ev.isWrite = false := by
  intro es
  induction es with
  | nil => intro i k ev hev; exact absurd hev (List.not_mem_nil ev)
  | cons e rest ih =>
    intro i k ev hev
    simp only [processAux] at hev
    rcases List.mem_append.mp hev with hin | hin
    · cases e with
      | str s =>
        unfold process_item at hin
        dsimp only at hin
        by_cases hi : i < total
        · rw [if_pos hi] at hin
          dsimp only at hin
          rcases List.mem_append.mp hin with h2 | h2
          · exact (verify_events cfg env s ev h2).2.2.1
          · simp only [List.mem_cons, List.not_mem_nil, or_false] at h2
            rcases h2 with h | h | h <;> subst h <;> rfl
        · rw [if_neg hi] at hin
          dsimp only at hin
          rcases List.mem_append.mp hin with h2 | h2
          · exact (verify_events cfg env s ev h2).2.2.1
          · simp only [List.mem_cons, List.not_mem_nil, or_false] at h2
            rcases h2 with h | h <;> subst h <;> rfl
      | int n =>
        simp only [process_item, List.mem_cons, List.not_mem_nil, or_false] at hin
        subst hin
        rfl
    · exact ih (i + 1) _ ev hin

theorem processAux_filter_sleep (cfg : EmailValidatorState) (env : Env)
    (rand : RandomSource) (minD maxD : ℚ) (total : Nat) :
    ∀ (es : List PyVal) (i k : Nat),
      (processAux cfg env rand minD maxD total i k es).2.filter Event.isSleep =
        expectedSleeps rand minD maxD total i k es := by
  intro es
  induction es with
  | nil => intro i k; rfl
  | cons e rest ih =>
    intro i k
    simp only [processAux]
    rw [List.filter_append]
    cases e with
    | str s =>
      unfold process_item
      dsimp only
      by_cases hi : i < total
      · rw [if_pos hi]
        dsimp only
        rw [List.filter_append, verify_filter_sleep, ih]
        simp only [expectedSleeps, if_pos hi]
        rfl
      · rw [if_neg hi]
        dsimp only
        rw [List.filter_append, verify_filter_sleep, ih]
        simp only [expectedSleeps, if_neg hi]
        rfl
    | int n =>
      simp only [process_item]
      rw [ih]
      simp only [expectedSleeps]
      rfl

theorem expectedSleeps_mem (rand : RandomSource) (minD maxD : ℚ) (total : Nat) :
    ∀ (es : List PyVal) (i k : Nat) (q : ℚ),
      Event.sleep q ∈ expectedSleeps rand minD maxD total i k es →
        ∃ j, q = rand minD maxD j := by
  intro es
  induction es with
  | nil => intro i k q h; exact absurd h (List.not_mem_nil _)
  | cons e rest ih =>
    intro i k q h
    cases e with
    | str s =>
      simp only [expectedSleeps] at h
      by_cases hi : i < total
      · rw [if_pos hi] at h
        rcases List.mem_cons.mp h with h2 | h2
        · exact ⟨k, by injection h2⟩
        · exact ih (i + 1) (k + 1) q h2
      · rw [if_neg hi] at h
        exact ih (i + 1) k q h
    | int n =>
      simp only [expectedSleeps] at h
      exact ih (i + 1) k q h

/-- For a string input at 0-based position `j` of the loop started at
    1-based index `i`, the progress line is emitted to the log and to
    the console. -/
theorem processAux_mem_str (cfg : EmailValidatorState) (env : Env)
    (rand : RandomSource) (minD maxD : ℚ) (total : Nat) :
    ∀ (es : List PyVal) (i k j : Nat) (s : String),
      es.get? j = some (PyVal.str s) →
      Event.logInfo (progressLine (i + j) total s (verify_email cfg env s).1.1
          (verify_email cfg env s).1.2)
        ∈ (processAux cfg env rand minD maxD total i k es).2 ∧
      Event.consolePrint (progressLine (i + j) total s (verify_email cfg env s).1.1
          (verify_email cfg env s).1.2)
        ∈ (processAux cfg env rand minD maxD total i k es).2 := by
  intro es
  induction es with
  | nil => intro i k j s h; simp at h
  | cons e rest ih =>
    intro i k j s hget
    cases j with
    | zero =>
      rw [List.get?_cons_zero] at hget
      injection hget with he
      subst he
      simp only [processAux, Nat.add_zero]
      constructor
      · refine List.mem_append.mpr (Or.inl ?_)
        unfold process_item
        dsimp only
        split <;>
          exact List.mem_append.mpr (Or.inr (List.mem_cons_self _ _))
      · refine List.mem_append.mpr (Or.inl ?_)
        unfold process_item
        dsimp only
        split <;>
          exact List.mem_append.mpr
            (Or.inr (List.mem_cons.mpr (Or.inr (List.mem_cons_self _ _))))
    | succ j2 =>
      rw [List.get?_cons_succ] at hget
      have harith : i + 1 + j2 = i + (j2 + 1) := by omega
      have hr := ih (i + 1)
        (process_item cfg env rand minD maxD total i k e).2 j2 s hget
      rw [harith] at hr
      simp only [processAux]
      exact ⟨List.mem_append.mpr (Or.inr hr.1),
        List.mem_append.mpr (Or.inr hr.2)⟩

/-- Mapping a result list back to its addresses gives the input list. -/
theorem map_itemResult_fst (cfg : EmailValidatorState) (env : Env)
    (es : List PyVal) :
    (es.map (itemResult cfg env)).map Prod.fst = es := by
  induction es with
  | nil => rfl
  | cons e t ih => simp only [List.map_cons, itemResult_fst, ih]

/-! ### Claim theorems -/

/-- C1: For every input list, `process_email_list` returns a result list
    whose length equals the input length, with exactly one
    `(address, is_valid, message)` tuple per input element, in input
    order; no element is dropped. -/
theorem process_email_list_one_result_per_input (cfg : EmailValidatorState)
    (env : Env) (rand : RandomSource) (es : List PyVal) (minD maxD : ℚ) :
    (process_email_list cfg env rand es minD maxD).1.length = es.length ∧
    (process_email_list cfg env rand es minD maxD).1.map Prod.fst = es := by
  rw [process_email_list_fst]
  exact ⟨by simp, map_itemResult_fst cfg env es⟩

/-- C4: A non-string input element is recorded as
    `(input, False, "Invalid email type")`, and its loop iteration
    performs no format validation, no DNS lookup, no SMTP connection,
    no console print and no delay: its entire effect is one warning log
    line, and the random-draw counter is unchanged. -/
theorem nonstring_input_short_circuits (cfg : EmailValidatorState) (env : Env)
    (rand : RandomSource) (minD maxD : ℚ) (es : List PyVal) (j : Nat) (e : PyVal)
    (hget : es.get? j = some e) (hns : e.isStr = false) :
    (process_email_list cfg env rand es minD maxD).1.get? j =
      some (e, false, "Invalid email type") ∧
    ∀ total i k, process_item cfg env rand minD maxD total i k e =
      (((e, false, "Invalid email type"),
        [Event.logWarning (nonStringLine e)]), k) := by
  constructor
  · rw [process_email_list_fst, List.get?_map, hget]
    cases e with
    | str s => simp [PyVal.isStr] at hns
    | int n => rfl
  · intro total i k
    cases e with
    | str s => simp [PyVal.isStr] at hns
    | int n => rfl

theorem nonstring_input_short_circuits_witness :
    (process_email_list defaultValidator envAllFail randMin
        [PyVal.int 12345] 1 5).1.get? 0 =
      some (PyVal.int 12345, false, "Invalid email type") ∧
    process_item defaultValidator envAllFail randMin 1 5 1 1 0 (PyVal.int 12345) =
      (((PyVal.int 12345, false, "Invalid email type"),
        [Event.logWarning (nonStringLine (PyVal.int 12345))]), 0) := by
  have h := nonstring_input_short_circuits defaultValidator envAllFail randMin 1 5
    [PyVal.int 12345] 0 (PyVal.int 12345) rfl rfl
  exact ⟨h.1, h.2 1 1 0⟩

/-- C5: For a syntactically invalid address string (the format library
    rejects it), `verify_email` returns `False` with an invalid-format
    message, and the call performs no observable effect at all — in
    particular no DNS lookup and no SMTP connection. -/
theorem invalid_format_short_circuits (cfg : EmailValidatorState) (env : Env)
    (email m : String) (hv : env.validate email = .err m) :
    (verify_email cfg env email).1 = (false, "Invalid email format: " ++ m) ∧
    (verify_email cfg env email).2 = [] := by
  unfold verify_email
  rw [hv]
  exact ⟨rfl, rfl⟩

theorem invalid_format_short_circuits_witness :
    (verify_email defaultValidator envAllFail "not-an-email").1 =
      (false, "Invalid email format: bad") ∧
    (verify_email defaultValidator envAllFail "not-an-email").2 = [] :=
  invalid_format_short_circuits defaultValidator envAllFail "not-an-email" "bad" rfl

/-- C6: `get_mx_record` makes exactly one resolver lookup per call (no
    retry); when the resolver returns records it yields the
    first-returned exchange hostname, and when the answer is empty or
    the lookup raises it returns `None` instead of propagating an
    error. -/
theorem get_mx_record_first_or_none (resolve : String → DnsOutcome)
    (domain mx m : String) (rest : List String) :
    ((get_mx_record resolve domain).2.filter Event.isResolve =
      [Event.resolveCall domain]) ∧
    (resolve domain = .records (mx :: rest) →
      (get_mx_record resolve domain).1 = some mx) ∧
    (resolve domain = .records [] → (get_mx_record resolve domain).1 = none) ∧
    (resolve domain = .exn m → (get_mx_record resolve domain).1 = none) := by
  refine ⟨gmx_resolve_filter resolve domain, ?_, ?_, ?_⟩ <;>
    intro h <;> unfold get_mx_record <;> rw [h]

theorem get_mx_record_first_or_none_witness :
    ((get_mx_record resolverTwo "b.c").2.filter Event.isResolve =
      [Event.resolveCall "b.c"]) ∧
    (get_mx_record resolverTwo "b.c").1 = some "mx1.b.c" := by
  have h := get_mx_record_first_or_none resolverTwo "b.c" "mx1.b.c" "" ["mx2.b.c"]
  exact ⟨h.1, h.2.1 rfl⟩

/-- C2: Every per-address error — invalid format, resolution failure,
    connection failure or disconnection, protocol rejection, or any
    other exception — is converted inside `verify_email` into a
    `(False, message)` return value, and the batch loop completes with
    one result per input no matter what the collaborators do. -/
theorem verify_email_converts_errors (cfg : EmailValidatorState) (env : Env)
    (email m norm l d mx text : String) (rest : List String) (code : Nat) :
    (env.validate email = .err m →
      (verify_email cfg env email).1 = (false, "Invalid email format: " ++ m)) ∧
    (env.validate email = .ok norm → pySplit norm '@' = [l, d] →
      env.resolve d = .exn m →
      (verify_email cfg env email).1 = (false, "Domain MX record not found")) ∧
    (env.validate email = .ok norm → pySplit norm '@' = [l, d] →
      env.resolve d = .records (mx :: rest) → mx ≠ "" →
      ((env.smtp mx norm = .connectError m →
         (verify_email cfg env email).1 = (false, "SMTP connection error: " ++ m)) ∧
       (env.smtp mx norm = .disconnected m →
         (verify_email cfg env email).1 = (false, "SMTP server disconnected: " ++ m)) ∧
       (env.smtp mx norm = .otherError m →
         (verify_email cfg env email).1 = (false, "Error during verification: " ++ m)) ∧
       (env.smtp mx norm = .rcptResult code text → code ≠ 250 →
         (verify_email cfg env email).1 =
           (false, "Server response: " ++ toString code ++ " " ++ text)))) ∧
    (∀ (rand : RandomSource) (minD maxD : ℚ) (es : List PyVal),
      (process_email_list cfg env rand es minD maxD).1.length = es.length) := by
  refine ⟨?_, ?_, ?_, ?_⟩
  · intro hv
    unfold verify_email
    rw [hv]
  · intro hv hs hr
    unfold verify_email
    rw [hv]
    dsimp only
    unfold verifySplit
    rw [hs]
    dsimp only
    unfold verifyMx get_mx_record
    rw [hr]
  · intro hv hs hr hmx
    unfold verify_email
    rw [hv]
    dsimp only
    unfold verifySplit
    rw [hs]
    dsimp only
    unfold verifyMx get_mx_record
    rw [hr]
    dsimp only
    rw [if_neg hmx]
    unfold verifyProbe
    refine ⟨?_, ?_, ?_, ?_⟩
    · intro hm; rw [hm]
    · intro hm; rw [hm]
    · intro hm; rw [hm]
    · intro hm hc
      rw [hm]
      dsimp only
      rw [if_neg hc]
  · intro rand minD maxD es
    rw [process_email_list_fst]
    simp

theorem verify_email_converts_errors_witness :
    (verify_email defaultValidator envAllFail "probe@test").1 =
      (false, "Invalid email format: bad") ∧
    (process_email_list defaultValidator envAllFail randMin
      [PyVal.str "probe@test", PyVal.int 7] 1 5).1.length = 2 := by
  have h := verify_email_converts_errors defaultValidator envAllFail
    "probe@test" "bad" "" "" "" "" "" [] 0
  exact ⟨h.1 rfl, h.2.2.2 randMin 1 5 [PyVal.str "probe@test", PyVal.int 7]⟩

/-- C3: If the SMTP recipient check answers code 250, `verify_email`
    returns `(True, "Email address is valid")`; for any other code it
    returns `False` with the message
    `"Server response: {code} {text}"`, which contains the numeric code
    (and the server text). -/
theorem rcpt_code_decides_validity (cfg : EmailValidatorState) (env : Env)
    (email norm l d mx text : String) (rest : List String) (code : Nat)
    (hv : env.validate email = .ok norm)
    (hs : pySplit norm '@' = [l, d])
    (hr : env.resolve d = .records (mx :: rest))
    (hmx : mx ≠ "")
    (hm : env.smtp mx norm = .rcptResult code text) :
    (code = 250 →
      (verify_email cfg env email).1 = (true, "Email address is valid")) ∧
    (code ≠ 250 →
      (verify_email cfg env email).1 =
        (false, "Server response: " ++ toString code ++ " " ++ text) ∧
      ∃ pre post, (verify_email cfg env email).1.2 = pre ++ toString code ++ post) := by
  have hbase : verify_email cfg env email =
      verifyProbe cfg env norm mx (get_mx_record env.resolve d).2 := by
    unfold verify_email
    rw [hv]
    dsimp only
    unfold verifySplit
    rw [hs]
    dsimp only
    unfold verifyMx
    dsimp only
    rw [show (get_mx_record env.resolve d).1 = some mx by
          unfold get_mx_record; rw [hr]]
    dsimp only
    rw [if_neg hmx]
  constructor
  · intro hc
    rw [hbase]
    unfold verifyProbe
    rw [hm]
    dsimp only
    rw [if_pos hc]
  · intro hc
    have hmsg : (verify_email cfg env email).1 =
        (false, "Server response: " ++ toString code ++ " " ++ text) := by
      rw [hbase]
      unfold verifyProbe
      rw [hm]
      dsimp only
      rw [if_neg hc]
    refine ⟨hmsg, "Server response: ", " " ++ text, ?_⟩
    rw [hmsg]
    simp [String.append_assoc]

theorem rcpt_code_decides_validity_witness :
    (verify_email defaultValidator envAccept "a@b.c").1 =
      (true, "Email address is valid") ∧
    (verify_email defaultValidator envReject "a@b.c").1 =
      (false, "Server response: " ++ toString 550 ++ " " ++ "user unknown") := by
  constructor
  · exact (rcpt_code_decides_validity defaultValidator envAccept "a@b.c" "a@b.c"
      "a" "b.c" "mx.b.c" "ok" [] 250 rfl (by decide) rfl (by decide) rfl).1 rfl
  · exact ((rcpt_code_decides_validity defaultValidator envReject "a@b.c" "a@b.c"
      "a" "b.c" "mx.b.c" "user unknown" [] 550 rfl (by decide) rfl (by decide) rfl).2
        (by decide)).1

/-- C7 counterexample: in the two-element batch `[1, "a"]` the first
    item is processed and is not the last, yet the run performs no
    sleep at all — the non-string branch skips the delay. -/
theorem delay_after_every_item_false :
    [PyVal.int 1, PyVal.str "a"].length = 2 ∧
    (process_email_list defaultValidator envAllFail randMin
      [PyVal.int 1, PyVal.str "a"] 1 5).2.filter Event.isSleep = [] := by
  constructor <;> rfl

/-- C7 amended: a delay drawn from the `random.uniform` source over
    `[min_delay, max_delay]` elapses after each processed string item
    except the one in the last position; non-string items are skipped
    with no delay, and no delay follows the final item. Every slept
    duration lies in `[min_delay, max_delay]`. -/
theorem delay_after_nonlast_string_items (cfg : EmailValidatorState) (env : Env)
    (rand : RandomSource) (minD maxD : ℚ) (es : List PyVal)
    (hrange : ∀ (a b : ℚ) (k : Nat), a ≤ b → a ≤ rand a b k ∧ rand a b k ≤ b)
    (hmm : minD ≤ maxD) :
    (process_email_list cfg env rand es minD maxD).2.filter Event.isSleep =
      expectedSleeps rand minD maxD es.length 1 0 es ∧
    ∀ q : ℚ, Event.sleep q ∈ (process_email_list cfg env rand es minD maxD).2 →
      minD ≤ q ∧ q ≤ maxD := by
  have hfilter : (process_email_list cfg env rand es minD maxD).2.filter
      Event.isSleep = expectedSleeps rand minD maxD es.length 1 0 es :=
    processAux_filter_sleep cfg env rand minD maxD es.length es 1 0
  refine ⟨hfilter, ?_⟩
  intro q hq
  have hmem : Event.sleep q ∈
      (process_email_list cfg env rand es minD maxD).2.filter Event.isSleep :=
    List.mem_filter.mpr ⟨hq, rfl⟩
  rw [hfilter] at hmem
  obtain ⟨j, hj⟩ := expectedSleeps_mem rand minD maxD es.length es 1 0 q hmem
  subst hj
  exact hrange minD maxD j hmm

theorem delay_after_nonlast_string_items_witness :
    (process_email_list defaultValidator envAccept randMin
        [PyVal.str "a@b.c", PyVal.str "d@b.c"] 1 5).2.filter Event.isSleep =
      expectedSleeps randMin 1 5 2 1 0 [PyVal.str "a@b.c", PyVal.str "d@b.c"] :=
  (delay_after_nonlast_string_items defaultValidator envAccept randMin 1 5
    [PyVal.str "a@b.c", PyVal.str "d@b.c"]
    (fun a _ _ h => ⟨le_refl a, h⟩) (by norm_num)).1

/-- C8 counterexample: the MAIL FROM sender address cannot be set
    through the constructor — whatever parameters `__init__` receives,
    the stored sender is the fixed constant. -/
theorem sender_configurable_false :
    ¬ ∃ (lf : String) (dl : Nat),
        (EmailValidator.init lf dl).sender_email ≠ "verification@example.com" := by
  rintro ⟨lf, dl, h⟩
  exact h rfl

/-- C8 amended: the constructor's configuration surface is the log file
    path and the SMTP debug level; the sender address used for the
    probe's MAIL FROM is the hardcoded constant
    `"verification@example.com"`, and every SMTP probe issued by
    `verify_email` uses exactly it. -/
theorem sender_email_hardcoded (lf : String) (dl : Nat) :
    (EmailValidator.init lf dl).log_file = lf ∧
    (EmailValidator.init lf dl).debug_level = dl ∧
    (EmailValidator.init lf dl).sender_email = "verification@example.com" ∧
    ∀ (env : Env) (email : String),
      (verify_email (EmailValidator.init lf dl) env email).2.all
        (Event.smtpSenderIs "verification@example.com") = true := by
  refine ⟨rfl, rfl, rfl, ?_⟩
  intro env email
  rw [List.all_eq_true]
  intro ev hev
  have h4 := (verify_events (EmailValidator.init lf dl) env email ev hev).2.2.2
  cases ev
  case smtpProbe a b c =>
    have hs2 := h4 a b c rfl
    subst hs2
    rfl
  all_goals rfl

/-- C9 counterexample: for a non-string item, the whole run trace is a
    single warning log line with no index/total and no console output
    at all — the claimed progress line is not emitted to both sinks. -/
theorem progress_line_both_sinks_false :
    (process_email_list defaultValidator envAllFail randMin [PyVal.int 5] 1 5).2 =
      [Event.logWarning "Email: 5, Valid: False, Message: Invalid email type"] ∧
    (process_email_list defaultValidator envAllFail randMin
      [PyVal.int 5] 1 5).2.filter Event.isConsole = [] := by
  constructor <;> rfl

/-- C9 amended: for every string item, the `[i/total]` progress line
    with the address, validity and message is emitted to both the log
    and the console; a non-string item instead produces exactly one
    warning log line (no index/total, no console output). -/
theorem progress_lines_by_item_kind (cfg : EmailValidatorState) (env : Env)
    (rand : RandomSource) (minD maxD : ℚ) (es : List PyVal) :
    (∀ (j : Nat) (s : String), es.get? j = some (PyVal.str s) →
      Event.logInfo (progressLine (j + 1) es.length s
          (verify_email cfg env s).1.1 (verify_email cfg env s).1.2)
        ∈ (process_email_list cfg env rand es minD maxD).2 ∧
      Event.consolePrint (progressLine (j + 1) es.length s
          (verify_email cfg env s).1.1 (verify_email cfg env s).1.2)
        ∈ (process_email_list cfg env rand es minD maxD).2) ∧
    (∀ (e : PyVal) (total i k : Nat), e.isStr = false →
      (process_item cfg env rand minD maxD total i k e).1.2 =
        [Event.logWarning (nonStringLine e)]) := by
  constructor
  · intro j s hget
    have h := processAux_mem_str cfg env rand minD maxD es.length es 1 0 j s hget
    rw [Nat.add_comm 1 j] at h
    exact h
  · intro e total i k hns
    cases e with
    | str s => simp [PyVal.isStr] at hns
    | int n => rfl

theorem progress_lines_by_item_kind_witness :
    (Event.logInfo (progressLine 1 1 "a@b.c" true "Email address is valid")
      ∈ (process_email_list defaultValidator envAccept randMin
          [PyVal.str "a@b.c"] 1 5).2) ∧
    (process_item defaultValidator envAccept randMin 1 5 2 1 0 (PyVal.int 5)).1.2 =
      [Event.logWarning (nonStringLine (PyVal.int 5))] := by
  have h := progress_lines_by_item_kind defaultValidator envAccept randMin 1 5
    [PyVal.str "a@b.c"]
  exact ⟨(h.1 0 "a@b.c" rfl).1, h.2 (PyVal.int 5) 2 1 0 rfl⟩

theorem length_filterMap_id_le {α : Type} (l : List (Option α)) :
    (l.filterMap id).length ≤ l.length := by
  induction l with
  | nil => exact Nat.le_refl 0
  | cons o t ih =>
    cases o with
    | none => exact Nat.le_succ_of_le ih
    | some a => exact Nat.succ_le_succ ih

theorem length_filterMap_id_lt {α : Type} (l : List (Option α))
    (h : none ∈ l) : (l.filterMap id).length < l.length := by
  induction l with
  | nil => cases h
  | cons o t ih =>
    cases o with
    | none => exact Nat.lt_succ_of_le (length_filterMap_id_le t)
    | some a =>
      rcases List.mem_cons.mp h with h2 | h2
      · cases h2
      · exact Nat.succ_lt_succ (ih h2)

theorem mem_filterMap_id {α : Type} (l : List (Option α)) (v : α)
    (h : some v ∈ l) : v ∈ l.filterMap id :=
  List.mem_filterMap.mpr ⟨some v, h, rfl⟩

/-- C10: when the email column has at least one missing and one present
    value, `read_emails_from_excel` returns fewer emails than the
    DataFrame has rows, so `main` ends in the uncaught length-mismatch
    error of the result-column assignment: the per-address results were
    computed, but no output file write ever happens. -/
theorem missing_cells_break_output (env : Env) (rand : RandomSource)
    (w : WriteOutcome) (df : DataFrame)
    (hcol : "Email" ∈ df.columns)
    (hmiss : (none : Option PyVal) ∈ df.emailCells)
    (v : PyVal) (hpres : some v ∈ df.emailCells) :
    (read_emails_from_excel (.table df) "input_emails.xlsx" "Email").1.1.length <
      df.emailCells.length ∧
    (∃ rs, (pyMain (.table df) env rand w).1 = .lengthMismatch rs ∧
      rs.length =
        (read_emails_from_excel (.table df) "input_emails.xlsx" "Email").1.1.length) ∧
    (pyMain (.table df) env rand w).2.filter Event.isWrite = [] := by
  have hread : read_emails_from_excel (.table df) "input_emails.xlsx" "Email" =
      (((df.emailCells.filterMap id).map pyStr, some df),
       [Event.logInfo ("Successfully read " ++
          toString ((df.emailCells.filterMap id).map pyStr).length ++
          " emails from " ++ "input_emails.xlsx")]) := by
    unfold read_emails_from_excel
    dsimp only
    rw [if_pos hcol]
  have hlt : ((df.emailCells.filterMap id).map pyStr).length <
      df.emailCells.length := by
    rw [List.length_map]
    exact length_filterMap_id_lt df.emailCells hmiss
  have hne : (df.emailCells.filterMap id).map pyStr ≠ [] := by
    intro hE
    have hv : v ∈ df.emailCells.filterMap id := mem_filterMap_id _ v hpres
    rw [List.map_eq_nil_iff] at hE
    rw [hE] at hv
    exact absurd hv (List.not_mem_nil v)
  obtain ⟨e, es2, hcons⟩ := List.exists_cons_of_ne_nil hne
  have hlen2 : (process_email_list defaultValidator env rand
      ((e :: es2).map PyVal.str) 1 5).1.length = (e :: es2).length := by
    rw [process_email_list_fst]
    simp
  have hlt2 : (e :: es2).length < df.emailCells.length := by
    rw [← hcons]
    exact hlt
  have hne2 : ¬ ((process_email_list defaultValidator env rand
      ((e :: es2).map PyVal.str) 1 5).1.length = df.emailCells.length) := by
    rw [hlen2]
    exact Nat.ne_of_lt hlt2
  have hproc : ∀ ev ∈ (process_email_list defaultValidator env rand
      ((e :: es2).map PyVal.str) 1 5).2, Event.isWrite ev = false :=
    processAux_no_write defaultValidator env rand 1 5
      ((e :: es2).map PyVal.str).length ((e :: es2).map PyVal.str) 1 0
  refine ⟨by rw [hread]; exact hlt, ?_, ?_⟩
  · refine ⟨(process_email_list defaultValidator env rand
      ((e :: es2).map PyVal.str) 1 5).1, ?_, ?_⟩
    · unfold pyMain
      rw [hread]
      dsimp only
      rw [hcons]
      dsimp only
      rw [if_neg hne2]
    · rw [hlen2, hread]
      dsimp only
      rw [hcons]
  · unfold pyMain
    rw [hread]
    dsimp only
    rw [hcons]
    dsimp only
    rw [if_neg hne2]
    dsimp only
    rw [List.filter_eq_nil_iff]
    intro ev hev
    rcases List.mem_append.mp hev with h1 | h1
    · rcases List.mem_append.mp h1 with h2 | h2
      · simp only [List.mem_cons, List.not_mem_nil, or_false] at h2
        rcases h2 with h3 | h3 <;> subst h3 <;> simp [Event.isWrite]
      · simp only [List.mem_cons, List.not_mem_nil, or_false] at h2
        subst h2
        simp [Event.isWrite]
    · simp [hproc ev h1]

theorem missing_cells_break_output_witness :
    ((read_emails_from_excel (.table dfHalfMissing)
        "input_emails.xlsx" "Email").1.1.length <
      dfHalfMissing.emailCells.length) ∧
    (pyMain (.table dfHalfMissing) envAllFail randMin .ok).2.filter
      Event.isWrite = [] := by
  have h := missing_cells_break_output envAllFail randMin .ok dfHalfMissing
    (by decide) (by decide) (PyVal.str "a@b.c") (by decide)
  exact ⟨h.1, h.2.2⟩

end EmailVerifier
